import Mathlib

/-!
Verification development for the ModernDashboard news aggregation core
(src/cpp_backend/src/services/news_service.cpp and its header).

The C++ service is shallowly embedded as pure Lean functions.  External
libraries are modelled as explicit parameters bundled in `Env`:
cURL (`performHttpRequest`) becomes `Env.fetch`, the tinyxml2 document
parser becomes `Env.parseXML` (returning `none` exactly when
`XMLDocument::Parse` does not return `XML_SUCCESS`), `std::hash<std::string>`
becomes `Env.hashStr`, and each libc `strptime`+`mktime` format attempt of
`parseDate` becomes one of `Env.fmt822`, `Env.fmtISO`, `Env.fmtDay`.
`time(nullptr)` is passed as an explicit `now : Int` argument.
`std::sort` guarantees only a sorted permutation (it is not a stable sort),
so the sorting step of `getLatestNews` is a parameter constrained by
`SortSpec` below.
-/

namespace ModernDashboard

/-- HttpResponse from news_service.h lines 34..40: body data, status code,
success flag. -/
structure HttpResponse where
  data : String
  status_code : Int
  success : Bool
deriving DecidableEq

/-- NewsArticle from news_service.h lines 45..57. `std::time_t` fields are
modelled as `Int`. -/
structure NewsArticle where
  id : String
  title : String
  description : String
  link : String
  source : String
  author : String
  category : String
  published_date : Int
  cached_at : Int
deriving DecidableEq

/-- Feed from news_service.h lines 62..73. -/
structure Feed where
  url : String
  title : String
  description : String
  last_error : String
  last_updated : Int
  last_fetch_attempt : Int
  is_active : Bool
deriving DecidableEq

/-- The Feed constructor `Feed(const std::string&)` from news_service.h
line 71: strings empty, timestamps 0, is_active true. -/
def Feed.mk0 (feed_url : String) : Feed :=
  { url := feed_url, title := "", description := "", last_error := "",
    last_updated := 0, last_fetch_attempt := 0, is_active := true }

/-- FeedType from news_service.h lines 78..83. -/
inductive FeedType where
  | RSS_2_0
  | ATOM_1_0
  | RSS_1_0
  | UNKNOWN
deriving DecidableEq

/-- CacheEntry from news_service.h lines 88..96. -/
structure CacheEntry where
  articles : List NewsArticle
  cached_at : Int
  expires_at : Int
deriving DecidableEq

/-- CacheEntry::is_expired (news_service.h line 93): `time(nullptr) > expires_at`,
with the current time passed explicitly. -/
def CacheEntry.is_expired (e : CacheEntry) (now : Int) : Bool :=
  now > e.expires_at

/-- A tinyxml2 element as observed by the service: name, attributes, the
text returned by GetText (none when there is no text child), child elements. -/
inductive XML where
  | elem (name : String) (attrs : List (String × String)) (innerText : Option String)
      (children : List XML)

/-- Element name accessor. -/
def XML.nameOf : XML → String
  | .elem n _ _ _ => n

/-- Element attribute list accessor. -/
def XML.attrsOf : XML → List (String × String)
  | .elem _ a _ _ => a

/-- Element text accessor (GetText result). -/
def XML.textOf : XML → Option String
  | .elem _ _ t _ => t

/-- Element children accessor. -/
def XML.childrenOf : XML → List XML
  | .elem _ _ _ c => c

/-- A parsed tinyxml2 document: its top level elements. -/
structure XMLDoc where
  roots : List XML

/-- FirstChildElement(name): the first child element with the given name. -/
def firstChildElement (cs : List XML) (nm : String) : Option XML :=
  cs.find? (fun c => c.nameOf == nm)

/-- getElementText (news_service.cpp lines 569..574): empty string when the
element is absent or has no text. -/
def getElementText : Option XML → String
  | none => ""
  | some e => (e.textOf).getD ""

/-- getElementAttribute (news_service.cpp lines 576..581): empty string when
the element or the attribute is absent. -/
def getElementAttribute (oe : Option XML) (attr_name : String) : String :=
  match oe with
  | none => ""
  | some e =>
    match (e.attrsOf).find? (fun p => p.1 == attr_name) with
    | none => ""
    | some p => p.2

/-- External collaborators of the service, as pure oracles. -/
structure Env where
  fetch : String → HttpResponse
  parseXML : String → Option XMLDoc
  hashStr : String → Nat
  fmt822 : String → Option Int
  fmtISO : String → Option Int
  fmtDay : String → Option Int

/-- Helper for `std::string::find`: does the needle occur in the haystack
(as a character list)? -/
def hasSubstrAux (n : List Char) : List Char → Bool
  | [] => n.isPrefixOf []
  | c :: t => n.isPrefixOf (c :: t) || hasSubstrAux n t

/-- `hay.find(needle) != npos` from the C++ source. -/
def hasSubstr (hay needle : String) : Bool :=
  hasSubstrAux needle.toList hay.toList

/-- detectFeedType (news_service.cpp lines 283..297): substring signatures
on the raw XML text. -/
def detectFeedType (xml_content : String) : FeedType :=
  if hasSubstr xml_content "<rss" then
    if hasSubstr xml_content "version=\"2.0\"" then FeedType.RSS_2_0
    else FeedType.RSS_1_0
  else if hasSubstr xml_content "<feed" &&
      hasSubstr xml_content "xmlns=\"http://www.w3.org/2005/Atom\"" then
    FeedType.ATOM_1_0
  else FeedType.UNKNOWN

/-- Split a character list at every occurrence of the character `>`
(the separators are dropped; n separators yield n+1 parts). -/
def splitOnGt : List Char → List (List Char)
  | [] => [[]]
  | c :: rest =>
    match splitOnGt rest with
    | [] => [[c]]
    | p :: ps => if c = '>' then [] :: p :: ps else (c :: p) :: ps

/-- Removal of every `<[^>]*>` match, expressed over the `>`-split parts:
each part that is followed by a separator either loses its suffix from the
first `<` on (together with the separator) when it contains `<`, or keeps
its `>` separator; the final part (after the last `>`) is kept whole, since
a `<` with no later `>` never matches. -/
def stripParts : List (List Char) → List Char
  | [] => []
  | [last] => last
  | p :: ps =>
    (if p.contains '<' then p.takeWhile (fun c => c ≠ '<') else p ++ ['>']) ++ stripParts ps

/-- One pass of `std::regex_replace(text, "&amp;", "&")`: literal pattern
replacement, scanning left to right without rescanning replacements. -/
def replaceAmp : List Char → List Char
  | '&' :: 'a' :: 'm' :: 'p' :: ';' :: rest => '&' :: replaceAmp rest
  | c :: rest => c :: replaceAmp rest
  | [] => []

/-- Replacement pass for `&lt;`. -/
def replaceLt : List Char → List Char
  | '&' :: 'l' :: 't' :: ';' :: rest => '<' :: replaceLt rest
  | c :: rest => c :: replaceLt rest
  | [] => []

/-- Replacement pass for `&gt;`. -/
def replaceGt : List Char → List Char
  | '&' :: 'g' :: 't' :: ';' :: rest => '>' :: replaceGt rest
  | c :: rest => c :: replaceGt rest
  | [] => []

/-- Replacement pass for `&quot;`. -/
def replaceQuot : List Char → List Char
  | '&' :: 'q' :: 'u' :: 'o' :: 't' :: ';' :: rest => '"' :: replaceQuot rest
  | c :: rest => c :: replaceQuot rest
  | [] => []

/-- Replacement pass for `&apos;`. -/
def replaceApos : List Char → List Char
  | '&' :: 'a' :: 'p' :: 'o' :: 's' :: ';' :: rest => '\'' :: replaceApos rest
  | c :: rest => c :: replaceApos rest
  | [] => []

/-- The whitespace class of `\s` in std::regex and of `std::isspace` in the
C locale. -/
def isCppWs (c : Char) : Bool :=
  c = ' ' || c = '\t' || c = '\n' || c = '\x0b' || c = '\x0c' || c = '\r'

/-- Collapse of every whitespace run to a single space, the
`regex_replace(text, "\s+", " ")` pass, written with a lookbehind flag. -/
def collapseWsGo (prevWs : Bool) : List Char → List Char
  | [] => []
  | c :: rest =>
    if isCppWs c then
      (if prevWs then [] else [' ']) ++ collapseWsGo true rest
    else c :: collapseWsGo false rest

/-- stripHtmlTags (news_service.cpp lines 448..483): tag removal, five
entity replacement passes in source order, whitespace collapse, then trim. -/
def stripHtmlTags (text : String) : String :=
  if text = "" then text
  else
    let l0 := stripParts (splitOnGt text.toList)
    let l1 := replaceAmp l0
    let l2 := replaceLt l1
    let l3 := replaceGt l2
    let l4 := replaceQuot l3
    let l5 := replaceApos l4
    let l6 := collapseWsGo false l5
    let l7 := l6.dropWhile isCppWs
    let l8 := ((l7.reverse).dropWhile isCppWs).reverse
    String.mk l8

/-- parseDate (news_service.cpp lines 420..446): empty input falls back to
the current time; otherwise the RFC822, ISO8601 and bare date formats are
attempted in order; when every attempt fails the current time is returned. -/
def parseDate (env : Env) (now : Int) (date_str : String) : Int :=
  if date_str = "" then now
  else
    match env.fmt822 date_str with
    | some t => t
    | none =>
      match env.fmtISO date_str with
      | some t => t
      | none =>
        match env.fmtDay date_str with
        | some t => t
        | none => now

/-- generateArticleId (news_service.cpp lines 415..418):
`std::to_string(hasher(title + link))`. -/
def generateArticleId (hashStr : String → Nat) (title link : String) : String :=
  toString (hashStr (title ++ link))

/-- generateCacheKey (news_service.cpp lines 502..505):
`"feed:" + std::to_string(hasher(feed_url))`. -/
def generateCacheKey (hashStr : String → Nat) (feed_url : String) : String :=
  "feed:" ++ toString (hashStr feed_url)

/-- Construction of one article from an RSS `<item>` element
(news_service.cpp lines 322..336). -/
def mkRSSArticle (env : Env) (now : Int) (feed_title : String) (feed_info : Feed)
    (item : XML) : NewsArticle :=
  let title := stripHtmlTags (getElementText (firstChildElement item.childrenOf "title"))
  let description :=
    stripHtmlTags (getElementText (firstChildElement item.childrenOf "description"))
  let link := getElementText (firstChildElement item.childrenOf "link")
  let author := getElementText (firstChildElement item.childrenOf "author")
  let category := getElementText (firstChildElement item.childrenOf "category")
  let source := if feed_title = "" then feed_info.url else feed_title
  let pub_date := getElementText (firstChildElement item.childrenOf "pubDate")
  { id := generateArticleId env.hashStr title link,
    title := title, description := description, link := link, source := source,
    author := author, category := category,
    published_date := parseDate env now pub_date, cached_at := now }

/-- Construction of one article from an Atom `<entry>` element
(news_service.cpp lines 365..405): summary preferred over content, link from
the href attribute, author from the nested name, category from the term
attribute, date from updated falling back to published. -/
def mkAtomArticle (env : Env) (now : Int) (feed_title : String) (feed_info : Feed)
    (entry : XML) : NewsArticle :=
  let title := stripHtmlTags (getElementText (firstChildElement entry.childrenOf "title"))
  let source := if feed_title = "" then feed_info.url else feed_title
  let description :=
    match firstChildElement entry.childrenOf "summary" with
    | some s => stripHtmlTags (getElementText (some s))
    | none =>
      match firstChildElement entry.childrenOf "content" with
      | some c => stripHtmlTags (getElementText (some c))
      | none => ""
  let link :=
    match firstChildElement entry.childrenOf "link" with
    | some l => getElementAttribute (some l) "href"
    | none => ""
  let author :=
    match firstChildElement entry.childrenOf "author" with
    | some a => getElementText (firstChildElement a.childrenOf "name")
    | none => ""
  let category :=
    match firstChildElement entry.childrenOf "category" with
    | some c => getElementAttribute (some c) "term"
    | none => ""
  let pd0 := getElementText (firstChildElement entry.childrenOf "updated")
  let pub_date := if pd0 = "" then getElementText (firstChildElement entry.childrenOf "published") else pd0
  { id := generateArticleId env.hashStr title link,
    title := title, description := description, link := link, source := source,
    author := author, category := category,
    published_date := parseDate env now pub_date, cached_at := now }

/-- The item loop shared by both parsers (news_service.cpp lines 318..341 and
361..410): the size guard `articles.size() < max_articles_per_feed_` is
checked before each element, and an article is appended only when both
title and link are non-empty.  The `int` bound takes part in the comparison
as an integer. -/
def feedLoop (mk : XML → NewsArticle) (maxA : Int) : List XML → List NewsArticle → List NewsArticle
  | [], acc => acc
  | it :: rest, acc =>
    if (acc.length : Int) < maxA then
      let a := mk it
      if a.title ≠ "" ∧ a.link ≠ "" then feedLoop mk maxA rest (acc ++ [a])
      else feedLoop mk maxA rest acc
    else acc

/-- parseRSSFeed (news_service.cpp lines 299..344).  A document that tinyxml2
fails to parse (`Env.parseXML` gives none), or without an `rss` root, or
without a `channel`, yields the empty list.  The channel description is read
in the source but unused for articles. -/
def parseRSSFeed (env : Env) (xml_content : String) (feed_info : Feed) (maxA : Int)
    (now : Int) : List NewsArticle :=
  match env.parseXML xml_content with
  | none => []
  | some doc =>
    match firstChildElement doc.roots "rss" with
    | none => []
    | some rss =>
      match firstChildElement rss.childrenOf "channel" with
      | none => []
      | some channel =>
        let feed_title := getElementText (firstChildElement channel.childrenOf "title")
        feedLoop (mkRSSArticle env now feed_title feed_info) maxA
          ((channel.childrenOf).filter (fun c => c.nameOf == "item")) []

/-- parseAtomFeed (news_service.cpp lines 346..413). -/
def parseAtomFeed (env : Env) (xml_content : String) (feed_info : Feed) (maxA : Int)
    (now : Int) : List NewsArticle :=
  match env.parseXML xml_content with
  | none => []
  | some doc =>
    match firstChildElement doc.roots "feed" with
    | none => []
    | some feed =>
      let feed_title := getElementText (firstChildElement feed.childrenOf "title")
      feedLoop (mkAtomArticle env now feed_title feed_info) maxA
        ((feed.childrenOf).filter (fun c => c.nameOf == "entry")) []

/-- Lookup in the `std::map<std::string, CacheEntry>` news cache, modelled
as an association list with unique keys. -/
def mapFind (m : List (String × CacheEntry)) (k : String) : Option CacheEntry :=
  match m.find? (fun p => p.1 == k) with
  | some p => some p.2
  | none => none

/-- `news_cache_.erase(key)` on the association list model. -/
def mapErase (m : List (String × CacheEntry)) (k : String) : List (String × CacheEntry) :=
  m.filter (fun p => !(p.1 == k))

/-- `news_cache_[key] = entry`: replace the binding when present, append
otherwise. -/
def mapInsert (m : List (String × CacheEntry)) (k : String) (v : CacheEntry) :
    List (String × CacheEntry) :=
  if m.any (fun p => p.1 == k) then m.map (fun p => if p.1 == k then (k, v) else p)
  else m ++ [(k, v)]

/-- The mutable service state: feed registry, news cache and configuration
(news_service.h lines 99..103).  The cURL handle is modelled as always
present. -/
structure NewsState where
  feeds : List Feed
  news_cache : List (String × CacheEntry)
  cache_ttl_seconds : Int
  max_articles_per_feed : Int
deriving DecidableEq

/-- getCachedNews on the bare cache map (news_service.cpp lines 507..521):
a present, unexpired entry is returned; an expired entry is erased during
the lookup and the empty list returned. -/
def cacheGet (now : Int) (m : List (String × CacheEntry)) (k : String) :
    List NewsArticle × List (String × CacheEntry) :=
  match mapFind m k with
  | some entry =>
    if ¬ (entry.is_expired now) then (entry.articles, m)
    else ([], mapErase m k)
  | none => ([], m)

/-- setCachedNews on the bare cache map (news_service.cpp lines 523..532):
stores with `expires_at = now + cache_ttl_seconds_`. -/
def cachePut (now ttl : Int) (m : List (String × CacheEntry)) (k : String)
    (articles : List NewsArticle) : List (String × CacheEntry) :=
  mapInsert m k { articles := articles, cached_at := now, expires_at := now + ttl }

/-- getCachedNews at the state level. -/
def getCachedNews (now : Int) (st : NewsState) (cache_key : String) :
    List NewsArticle × NewsState :=
  let r := cacheGet now st.news_cache cache_key
  (r.1, { st with news_cache := r.2 })

/-- setCachedNews at the state level. -/
def setCachedNews (now : Int) (st : NewsState) (cache_key : String)
    (articles : List NewsArticle) : NewsState :=
  { st with news_cache := cachePut now st.cache_ttl_seconds st.news_cache cache_key articles }

/-- The seen-id loop of deduplicateArticles (news_service.cpp lines 555..567);
the `std::set` of seen ids is modelled by a list queried for membership. -/
def dedupeGo (seen : List String) : List NewsArticle → List NewsArticle
  | [] => []
  | a :: rest =>
    if a.id ∈ seen then dedupeGo seen rest
    else a :: dedupeGo (a.id :: seen) rest

/-- deduplicateArticles (news_service.cpp lines 555..567). -/
def deduplicateArticles (articles : List NewsArticle) : List NewsArticle :=
  dedupeGo [] articles

/-- Minimal JSON string escaping as performed by nlohmann::json dump. -/
def escapeJsonChar (c : Char) : List Char :=
  if c = '"' then ['\\', '"']
  else if c = '\\' then ['\\', '\\']
  else if c = '\n' then ['\\', 'n']
  else if c = '\t' then ['\\', 't']
  else if c = '\r' then ['\\', 'r']
  else [c]

/-- JSON rendering of a string value. -/
def jsonStr (s : String) : String :=
  "\"" ++ String.mk (s.toList.flatMap escapeJsonChar) ++ "\""

/-- One article object as dumped by nlohmann::json (keys in alphabetical
order, the order an nlohmann object iterates in). -/
def articleToJson (a : NewsArticle) : String :=
  "\x7b\"author\":" ++ jsonStr a.author ++
  ",\"cached_at\":" ++ toString a.cached_at ++
  ",\"category\":" ++ jsonStr a.category ++
  ",\"description\":" ++ jsonStr a.description ++
  ",\"id\":" ++ jsonStr a.id ++
  ",\"link\":" ++ jsonStr a.link ++
  ",\"published_date\":" ++ toString a.published_date ++
  ",\"source\":" ++ jsonStr a.source ++
  ",\"title\":" ++ jsonStr a.title ++ "\x7d"

/-- articlesToJson (news_service.cpp lines 534..553): a JSON array dump;
the empty list dumps as the two-character string with open and close
bracket. -/
def articlesToJson (articles : List NewsArticle) : String :=
  "[" ++ String.intercalate "," (articles.map articleToJson) ++ "]"

/-- addFeed (news_service.cpp lines 62..94): empty url, duplicate url,
failed or non-200 validation fetch, and UNKNOWN feed type each return false
with the state untouched; otherwise exactly one default-constructed Feed is
appended. -/
def addFeed (env : Env) (st : NewsState) (feed_url : String) : Bool × NewsState :=
  if feed_url = "" then (false, st)
  else if st.feeds.any (fun f => f.url == feed_url) then (false, st)
  else
    let response := env.fetch feed_url
    if ¬ (response.success = true ∧ response.status_code = 200) then (false, st)
    else if detectFeedType response.data = FeedType.UNKNOWN then (false, st)
    else (true, { st with feeds := st.feeds ++ [Feed.mk0 feed_url] })

/-- One iteration of the feed loop of getLatestNews (news_service.cpp lines
143..185): skip inactive feeds; consult the cache unless force_refresh;
on a cache miss fetch, record the attempt time, and either parse by detected
type (updating last_updated, clearing last_error and caching a non-empty
result, or recording a parse failure) or record the HTTP error. -/
def processFeed (env : Env) (now : Int) (force_refresh : Bool) (ttl maxA : Int)
    (cache : List (String × CacheEntry)) (feed : Feed) :
    Feed × List (String × CacheEntry) × List NewsArticle :=
  if ¬ feed.is_active then (feed, cache, [])
  else
    let cache_key := generateCacheKey env.hashStr feed.url
    let r0 := if ¬ force_refresh then cacheGet now cache cache_key else ([], cache)
    let cached_articles := r0.1
    let cache1 := r0.2
    if cached_articles.isEmpty then
      let response := env.fetch feed.url
      let feed1 := { feed with last_fetch_attempt := now }
      if response.success = true ∧ response.status_code = 200 then
        let ty := detectFeedType response.data
        let articles :=
          if ty = FeedType.RSS_2_0 ∨ ty = FeedType.RSS_1_0 then
            parseRSSFeed env response.data feed1 maxA now
          else if ty = FeedType.ATOM_1_0 then
            parseAtomFeed env response.data feed1 maxA now
          else []
        if ¬ articles.isEmpty then
          ({ feed1 with last_updated := now, last_error := "" },
            cachePut now ttl cache1 cache_key articles, articles)
        else
          ({ feed1 with last_error := "Failed to parse feed content" }, cache1, [])
      else
        ({ feed1 with last_error := "HTTP error: " ++ toString response.status_code },
          cache1, [])
    else (feed, cache1, cached_articles)

/-- The fold of getLatestNews over the feed registry, collecting the updated
feeds, the updated cache and the concatenated article lists in feed order. -/
def aggregateFeeds (env : Env) (now : Int) (force_refresh : Bool) (ttl maxA : Int) :
    List Feed → List (String × CacheEntry) →
    List Feed × List (String × CacheEntry) × List NewsArticle
  | [], cache => ([], cache, [])
  | feed :: rest, cache =>
    let r := processFeed env now force_refresh ttl maxA cache feed
    let rr := aggregateFeeds env now force_refresh ttl maxA rest r.2.1
    (r.1 :: rr.1, rr.2.1, r.2.2 ++ rr.2.2)

/-- The collection phase of getLatestNews (news_service.cpp lines 137..186):
all articles gathered across active feeds, together with the updated state. -/
def getLatestNewsCore (env : Env) (now : Int) (force_refresh : Bool) (st : NewsState) :
    List NewsArticle × NewsState :=
  let r := aggregateFeeds env now force_refresh st.cache_ttl_seconds
    st.max_articles_per_feed st.feeds st.news_cache
  (r.2.2, { st with feeds := r.1, news_cache := r.2.1 })

/-- The postcondition of `std::sort` with comparator
`a.published_date > b.published_date` (news_service.cpp lines 192..195):
a permutation of the input that is pairwise non-increasing in
published_date.  `std::sort` guarantees nothing further; in particular it
is not required to be stable. -/
def SortSpec (f : List NewsArticle → List NewsArticle) : Prop :=
  ∀ l, (f l).Perm l ∧
    List.Sorted (fun a b => b.published_date ≤ a.published_date) (f l)

/-- getLatestNews (news_service.cpp lines 137..203): collect, deduplicate,
sort newest first (any `std::sort` behavior, passed as `sortImpl`), truncate
to 100 and serialize. -/
def getLatestNews (env : Env) (now : Int)
    (sortImpl : List NewsArticle → List NewsArticle) (force_refresh : Bool)
    (st : NewsState) : String × NewsState :=
  let p := getLatestNewsCore env now force_refresh st
  let deduped := deduplicateArticles p.1
  let sorted := sortImpl deduped
  let limited := if 100 < sorted.length then sorted.take 100 else sorted
  (articlesToJson limited, p.2)

/-- refreshAllFeeds (news_service.cpp lines 205..207):
`getLatestNews(true).empty() ? 0 : (int)feeds_.size()`. -/
def refreshAllFeeds (env : Env) (now : Int)
    (sortImpl : List NewsArticle → List NewsArticle) (st : NewsState) :
    Int × NewsState :=
  let r := getLatestNews env now sortImpl true st
  (if r.1 = "" then 0 else ((r.2.feeds.length : Int)), r.2)

/-- The default feed registry installed by initialize
(news_service.cpp lines 49..56). -/
def defaultFeeds : List Feed :=
  [Feed.mk0 "https://rss.cnn.com/rss/edition.rss",
   Feed.mk0 "https://feeds.bbci.co.uk/news/world/rss.xml",
   Feed.mk0 "https://techcrunch.com/feed/",
   Feed.mk0 "https://www.reddit.com/r/technology/.rss"]

/-- NewsService::initialize (news_service.cpp lines 39..60), with the cURL
handle modelled as present: the TTL is clamped to a 300 second floor, the
per-feed article bound to the range 1..200, and the registry is replaced by
the default feeds. -/
def initializeService (st : NewsState) (cache_ttl_seconds max_articles_per_feed : Int) :
    Bool × NewsState :=
  (true,
    { st with
      cache_ttl_seconds := max 300 cache_ttl_seconds,
      max_articles_per_feed := max 1 (min max_articles_per_feed 200),
      feeds := defaultFeeds })

/-- setCacheTTL (news_service.cpp lines 214..216). -/
def setCacheTTL (st : NewsState) (ttl_seconds : Int) : NewsState :=
  { st with cache_ttl_seconds := max 300 ttl_seconds }

/-- clearCache (news_service.cpp lines 209..212). -/
def clearCache (st : NewsState) : NewsState :=
  { st with news_cache := [] }

/-- removeFeed (news_service.cpp lines 96..116): erase the first feed with
the given url and purge its cache entry. -/
def removeFeed (env : Env) (st : NewsState) (feed_url : String) : Bool × NewsState :=
  if st.feeds.any (fun f => f.url == feed_url) then
    (true,
      { st with
        feeds := st.feeds.eraseP (fun f => f.url == feed_url),
        news_cache := mapErase st.news_cache (generateCacheKey env.hashStr feed_url) })
  else (false, st)

/-- A concrete admissible `std::sort` model: insertion sort under the
non-increasing published_date order. -/
def newsDesc (a b : NewsArticle) : Prop :=
  b.published_date ≤ a.published_date

instance : DecidableRel newsDesc := fun a b =>
  inferInstanceAs (Decidable (b.published_date ≤ a.published_date))

instance : IsTotal NewsArticle newsDesc :=
  ⟨fun a b => (le_total b.published_date a.published_date).imp id id⟩

instance : IsTrans NewsArticle newsDesc :=
  ⟨fun _ _ _ h1 h2 => le_trans h2 h1⟩

/-- One admissible sorting function. -/
def sortDescModel : List NewsArticle → List NewsArticle :=
  List.insertionSort newsDesc

/-- The strict descending order on published_date. -/
def newsDescStrict (a b : NewsArticle) : Prop :=
  b.published_date < a.published_date

instance : IsAntisymm NewsArticle newsDescStrict :=
  ⟨fun _ _ h1 h2 => absurd (lt_trans h1 h2) (lt_irrefl _)⟩

/-- The insertion sort model satisfies the `std::sort` postcondition. -/
theorem sortDescModel_sortSpec : SortSpec sortDescModel :=
  fun l => ⟨List.perm_insertionSort newsDesc l, List.sorted_insertionSort newsDesc l⟩

/-- A weakly descending list with pairwise distinct dates is strictly
descending. -/
theorem sorted_strict_of_nodup {l : List NewsArticle}
    (h : List.Sorted (fun a b => b.published_date ≤ a.published_date) l)
    (hn : (l.map (fun a => a.published_date)).Nodup) :
    List.Sorted newsDescStrict l := by
  have hn2 : List.Pairwise (fun a b : NewsArticle => a.published_date ≠ b.published_date) l := by
    simpa [List.Nodup, List.pairwise_map] using hn
  have := h.and hn2
  exact this.imp (fun hab => lt_of_le_of_ne hab.1 (fun he => hab.2 he.symm))

/-- Any function with the `std::sort` postcondition is fully determined on
an input whose dates are pairwise distinct: it must return the unique
strictly descending permutation. -/
theorem sortSpec_eq {f : List NewsArticle → List NewsArticle} (hf : SortSpec f)
    (l t : List NewsArticle)
    (hn : (l.map (fun a => a.published_date)).Nodup)
    (ht : List.Sorted newsDescStrict t) (hp : t.Perm l) : f l = t := by
  have h1 := (hf l).1
  have hperm : (f l).Perm t := h1.trans hp.symm
  have hmap : ((f l).map (fun a => a.published_date)).Nodup :=
    ((h1.map (fun a => a.published_date)).nodup_iff).mpr hn
  exact List.eq_of_perm_of_sorted hperm (sorted_strict_of_nodup (hf l).2 hmap) ht

/-- The deduplication loop output is a sublist of its input. -/
theorem dedupeGo_sublist : ∀ (l : List NewsArticle) (seen : List String),
    (dedupeGo seen l).Sublist l := by
  intro l
  induction l with
  | nil => intro seen; simp [dedupeGo]
  | cons a rest ih =>
    intro seen
    by_cases h : a.id ∈ seen
    · simpa [dedupeGo, h] using (ih seen).cons a
    · simpa [dedupeGo, h] using (ih (a.id :: seen)).cons₂ a

/-- Unfolding equation of the loop when the head id was already seen. -/
theorem dedupeGo_cons_mem {a : NewsArticle} {seen : List String}
    (h : a.id ∈ seen) (rest : List NewsArticle) :
    dedupeGo seen (a :: rest) = dedupeGo seen rest := by
  simp [dedupeGo, h]

/-- Unfolding equation of the loop when the head id is new. -/
theorem dedupeGo_cons_new {a : NewsArticle} {seen : List String}
    (h : a.id ∉ seen) (rest : List NewsArticle) :
    dedupeGo seen (a :: rest) = a :: dedupeGo (a.id :: seen) rest := by
  simp [dedupeGo, h]

/-- Invariant of the deduplication loop: the surviving ids are pairwise
distinct and avoid the seen set. -/
theorem dedupeGo_nodup : ∀ (l : List NewsArticle) (seen : List String),
    ((dedupeGo seen l).map (fun a => a.id)).Nodup ∧
      ∀ x ∈ dedupeGo seen l, x.id ∉ seen := by
  intro l
  induction l with
  | nil => intro seen; simp [dedupeGo]
  | cons a rest ih =>
    intro seen
    by_cases h : a.id ∈ seen
    · rw [dedupeGo_cons_mem h]
      exact ih seen
    · rw [dedupeGo_cons_new h]
      have ihh := ih (a.id :: seen)
      refine ⟨?_, ?_⟩
      · rw [List.map_cons, List.nodup_cons]
        refine ⟨?_, ihh.1⟩
        intro hmem
        rcases List.mem_map.mp hmem with ⟨x, hx, hxid⟩
        exact (ihh.2 x hx) (by simp [hxid])
      · intro x hx
        rcases List.mem_cons.mp hx with heq | hx2
        · rw [heq]; exact h
        · have := ihh.2 x hx2
          intro hmem; exact this (by simp [hmem])

/-- Every input article has a representative with the same id in the
deduplicated output. -/
theorem dedupeGo_rep : ∀ (l : List NewsArticle) (seen : List String)
    (x : NewsArticle), x ∈ l → x.id ∉ seen →
    ∃ y ∈ dedupeGo seen l, y.id = x.id := by
  intro l
  induction l with
  | nil => intro seen x hx; simp at hx
  | cons a rest ih =>
    intro seen x hx hseen
    by_cases h : a.id ∈ seen
    · rw [dedupeGo_cons_mem h]
      rcases List.mem_cons.mp hx with heq | hx2
      · exact absurd (heq ▸ h) hseen
      · exact ih seen x hx2 hseen
    · rw [dedupeGo_cons_new h]
      rcases List.mem_cons.mp hx with heq | hx2
      · exact ⟨a, by simp, by rw [heq]⟩
      · by_cases hid : x.id = a.id
        · exact ⟨a, by simp, hid.symm⟩
        · have hy := ih (a.id :: seen) x hx2 (by simp [hid, hseen])
          rcases hy with ⟨y, hy1, hy2⟩
          exact ⟨y, by simp [hy1], hy2⟩

/-- The seen set reached after the loop has consumed a list. -/
def seenAfter (seen : List String) : List NewsArticle → List String
  | [] => seen
  | a :: rest =>
    if a.id ∈ seen then seenAfter seen rest else seenAfter (a.id :: seen) rest

/-- The deduplication loop distributes over append, threading the seen set. -/
theorem dedupeGo_append : ∀ (xs : List NewsArticle) (seen : List String)
    (ys : List NewsArticle),
    dedupeGo seen (xs ++ ys) = dedupeGo seen xs ++ dedupeGo (seenAfter seen xs) ys := by
  intro xs
  induction xs with
  | nil => intro seen ys; simp [dedupeGo, seenAfter]
  | cons a rest ih =>
    intro seen ys
    by_cases h : a.id ∈ seen
    · simp [dedupeGo, seenAfter, h, ih]
    · simp [dedupeGo, seenAfter, h, ih]

/-- Seen ids persist while the loop consumes more articles. -/
theorem mem_seenAfter : ∀ (xs : List NewsArticle) (seen : List String) (s : String),
    s ∈ seen → s ∈ seenAfter seen xs := by
  intro xs
  induction xs with
  | nil => intro seen s hs; simpa [seenAfter] using hs
  | cons a rest ih =>
    intro seen s hs
    by_cases h : a.id ∈ seen
    · simpa [seenAfter, h] using ih seen s hs
    · simpa [seenAfter, h] using ih (a.id :: seen) s (by simp [hs])

/-- After the loop consumes a list, the id of each consumed article is in
the seen set. -/
theorem id_mem_seenAfter : ∀ (xs : List NewsArticle) (seen : List String)
    (a : NewsArticle), a ∈ xs → a.id ∈ seenAfter seen xs := by
  intro xs
  induction xs with
  | nil => intro seen a ha; simp at ha
  | cons b rest ih =>
    intro seen a ha
    rcases List.mem_cons.mp ha with rfl | ha2
    · by_cases h : a.id ∈ seen
      · simpa [seenAfter, h] using mem_seenAfter rest seen a.id h
      · simpa [seenAfter, h] using mem_seenAfter rest (a.id :: seen) a.id (by simp)
    · by_cases h : b.id ∈ seen
      · simpa [seenAfter, h] using ih seen a ha2
      · simpa [seenAfter, h] using ih (b.id :: seen) a ha2

/-- A later duplicate (same id as an earlier article) is dropped without a
trace: removing it from the input does not change the output. -/
theorem dedupe_drop_dup (pre mid post : List NewsArticle) (a b : NewsArticle)
    (hid : a.id = b.id) :
    deduplicateArticles (pre ++ a :: (mid ++ b :: post)) =
      deduplicateArticles (pre ++ a :: (mid ++ post)) := by
  have hassoc : ∀ (post' : List NewsArticle),
      pre ++ a :: (mid ++ post') = (pre ++ a :: mid) ++ post' := by
    intro post'; simp
  have hb : b.id ∈ seenAfter [] (pre ++ a :: mid) := by
    have ha : a ∈ pre ++ a :: mid := by simp
    simpa [hid] using id_mem_seenAfter (pre ++ a :: mid) [] a ha
  have hL : dedupeGo [] ((pre ++ a :: mid) ++ b :: post) =
      dedupeGo [] (pre ++ a :: mid) ++
        dedupeGo (seenAfter [] (pre ++ a :: mid)) (b :: post) :=
    dedupeGo_append (pre ++ a :: mid) [] (b :: post)
  have hR : dedupeGo [] ((pre ++ a :: mid) ++ post) =
      dedupeGo [] (pre ++ a :: mid) ++
        dedupeGo (seenAfter [] (pre ++ a :: mid)) post :=
    dedupeGo_append (pre ++ a :: mid) [] post
  unfold deduplicateArticles
  rw [hassoc (b :: post), hassoc post, hL, hR, dedupeGo_cons_mem hb]

/-- The per-feed loop never collects more articles than its integer bound
allows beyond what it already holds. -/
theorem feedLoop_length_le (mk : XML → NewsArticle) (maxA : Int) :
    ∀ (items : List XML) (acc : List NewsArticle),
    ((feedLoop mk maxA items acc).length : Int) ≤ max (acc.length : Int) maxA := by
  intro items
  induction items with
  | nil => intro acc; simp [feedLoop]
  | cons it rest ih =>
    intro acc
    by_cases hlen : ((acc.length : Int) < maxA)
    · by_cases hv : (mk it).title ≠ "" ∧ (mk it).link ≠ ""
      · have he : feedLoop mk maxA (it :: rest) acc = feedLoop mk maxA rest (acc ++ [mk it]) := by
          simp [feedLoop, hlen, hv]
        rw [he]
        refine le_trans (ih (acc ++ [mk it])) (max_le ?_ (le_max_right _ _))
        have hlen2 : (((acc ++ [mk it]).length : Int)) = (acc.length : Int) + 1 := by
          simp
        rw [hlen2]
        refine le_trans ?_ (le_max_right (acc.length : Int) maxA)
        omega
      · have he : feedLoop mk maxA (it :: rest) acc = feedLoop mk maxA rest acc := by
          simp [feedLoop, hlen, hv]
        rw [he]
        exact ih acc
    · have he : feedLoop mk maxA (it :: rest) acc = acc := by
        simp [feedLoop, hlen]
      rw [he]
      exact le_max_left _ _

/-- parseRSSFeed returns at most `maxA` articles for a non-negative bound. -/
theorem parseRSSFeed_length_le (env : Env) (s : String) (fi : Feed) (maxA now : Int)
    (h : 0 ≤ maxA) :
    ((parseRSSFeed env s fi maxA now).length : Int) ≤ maxA := by
  unfold parseRSSFeed
  split
  · simpa using h
  · split
    · simpa using h
    · split
      · simpa using h
      · refine le_trans (feedLoop_length_le _ _ _ []) ?_
        simpa using max_le h (le_refl maxA)

/-- parseAtomFeed returns at most `maxA` articles for a non-negative bound. -/
theorem parseAtomFeed_length_le (env : Env) (s : String) (fi : Feed) (maxA now : Int)
    (h : 0 ≤ maxA) :
    ((parseAtomFeed env s fi maxA now).length : Int) ≤ maxA := by
  unfold parseAtomFeed
  split
  · simpa using h
  · split
    · simpa using h
    · refine le_trans (feedLoop_length_le _ _ _ []) ?_
      simpa using max_le h (le_refl maxA)

/-- The aggregation fold touches feed fields but never the number of feeds. -/
theorem aggregateFeeds_length (env : Env) (now : Int) (force_refresh : Bool)
    (ttl maxA : Int) :
    ∀ (feeds : List Feed) (cache : List (String × CacheEntry)),
    ((aggregateFeeds env now force_refresh ttl maxA feeds cache).1).length = feeds.length := by
  intro feeds
  induction feeds with
  | nil => intro cache; simp [aggregateFeeds]
  | cons f rest ih => intro cache; simp [aggregateFeeds, ih]

/-- The serialized article array is never the empty string: it always
carries the surrounding brackets. -/
theorem articlesToJson_ne_empty (l : List NewsArticle) : articlesToJson l ≠ "" := by
  intro h
  have hlen := congrArg String.length h
  rw [articlesToJson, String.length_append, String.length_append] at hlen
  have h0 : ("").length = 0 := rfl
  have h1 : ("[").length = 1 := rfl
  have h2 : ("]").length = 1 := rfl
  omega

/-- find? distributes over the replace-in-place map of `mapInsert`. -/
theorem find?_map_update (m : List (String × CacheEntry)) (k : String)
    (v : CacheEntry) :
    List.find? (fun p => p.1 == k) (m.map (fun p => if p.1 == k then (k, v) else p)) =
      (List.find? (fun p => p.1 == k) m).map (fun _ => (k, v)) := by
  induction m with
  | nil => simp
  | cons p t ih =>
    by_cases hp : p.1 = k
    · simp [List.find?_cons, hp]
    · have hp' : (p.1 == k) = false := by simp [hp]
      simp only [List.map_cons, hp', Bool.false_eq_true, if_false, List.find?_cons]
      exact ih

/-- Map lookup after insertion of a binding finds that binding. -/
theorem mapFind_mapInsert_self (m : List (String × CacheEntry)) (k : String)
    (v : CacheEntry) : mapFind (mapInsert m k v) k = some v := by
  unfold mapInsert
  cases hany : m.any (fun p => p.1 == k) with
  | true =>
    rw [if_pos rfl]
    unfold mapFind
    rw [find?_map_update]
    rcases hfind : List.find? (fun p => p.1 == k) m with _ | q
    · exfalso
      rcases List.any_eq_true.mp hany with ⟨x, hx, hxk⟩
      have hsome : (List.find? (fun p => p.1 == k) m).isSome :=
        List.find?_isSome.mpr ⟨x, hx, hxk⟩
      rw [hfind] at hsome
      simp at hsome
    · rw [hfind]
      rfl
  | false =>
    rw [if_neg (by simp)]
    unfold mapFind
    rw [List.find?_append]
    have hnone : m.find? (fun p => p.1 == k) = none := by
      rcases hfind : m.find? (fun p => p.1 == k) with _ | q
      · exact hfind
      · exfalso
        have hsome : (List.find? (fun p => p.1 == k) m).isSome := by
          simp [hfind]
        have := List.any_eq_true.mpr (List.find?_isSome.mp hsome)
        rw [hany] at this
        simp at this
    simp [hnone, List.find?_cons]

/-- Map lookup after erasure of a key misses. -/
theorem mapFind_mapErase_self (m : List (String × CacheEntry)) (k : String) :
    mapFind (mapErase m k) k = none := by
  unfold mapFind mapErase
  induction m with
  | nil => simp
  | cons p t ih =>
    by_cases hp : p.1 = k
    · simpa [List.filter_cons, hp] using ih
    · have hp' : (p.1 == k) = false := by simp [hp]
      simpa [List.filter_cons, hp', List.find?_cons] using ih

/-- C5: detectFeedType classifies by the substring signatures of the root
tags: an `<rss` signature yields RSS, refined to RSS_2_0 exactly when the
`version="2.0"` signature is present and RSS_1_0 otherwise; without the
`<rss` signature, a `<feed` signature together with the Atom namespace
signature yields ATOM_1_0; every other input is UNKNOWN. -/
theorem claim_C5_detectFeedType (s : String) :
    (detectFeedType s = FeedType.RSS_2_0 ↔
      (hasSubstr s "<rss" = true ∧ hasSubstr s "version=\"2.0\"" = true))
  ∧ (detectFeedType s = FeedType.RSS_1_0 ↔
      (hasSubstr s "<rss" = true ∧ hasSubstr s "version=\"2.0\"" = false))
  ∧ (detectFeedType s = FeedType.ATOM_1_0 ↔
      (hasSubstr s "<rss" = false ∧ hasSubstr s "<feed" = true ∧
        hasSubstr s "xmlns=\"http://www.w3.org/2005/Atom\"" = true))
  ∧ (detectFeedType s = FeedType.UNKNOWN ↔
      (hasSubstr s "<rss" = false ∧ (hasSubstr s "<feed" = false ∨
        hasSubstr s "xmlns=\"http://www.w3.org/2005/Atom\"" = false))) := by
  cases h1 : hasSubstr s "<rss" <;>
    cases h2 : hasSubstr s "version=\"2.0\"" <;>
      cases h3 : hasSubstr s "<feed" <;>
        cases h4 : hasSubstr s "xmlns=\"http://www.w3.org/2005/Atom\"" <;>
          simp [detectFeedType, h1, h2, h3, h4]

/-- C6: deduplication keeps exactly the articles whose id was not seen
earlier: the output is an order-preserving sublist of the input with
pairwise distinct ids, every input id keeps a representative, and an
article whose id equals that of an earlier article is dropped with no
effect on the rest of the output. -/
theorem claim_C6_dedupe (l : List NewsArticle) :
    (deduplicateArticles l).Sublist l
  ∧ ((deduplicateArticles l).map (fun a => a.id)).Nodup
  ∧ (∀ x ∈ l, ∃ y ∈ deduplicateArticles l, y.id = x.id)
  ∧ (∀ (pre mid post : List NewsArticle) (a b : NewsArticle), a.id = b.id →
      deduplicateArticles (pre ++ a :: (mid ++ b :: post)) =
        deduplicateArticles (pre ++ a :: (mid ++ post))) := by
  refine ⟨dedupeGo_sublist l [], (dedupeGo_nodup l []).1, ?_, ?_⟩
  · intro x hx
    exact dedupeGo_rep l [] x hx (by simp)
  · intro pre mid post a b hid
    exact dedupe_drop_dup pre mid post a b hid

/-- First duplicate-collapse demonstration article: title `T`, link `L`,
carried by one feed. -/
def wA : NewsArticle :=
  { id := generateArticleId (fun s => s.length) "T" "L", title := "T",
    description := "copy from feed one", link := "L", source := "S1",
    author := "", category := "", published_date := 5, cached_at := 1 }

/-- Second demonstration article: identical title and link, different feed
origin, hence the identical derived id. -/
def wB : NewsArticle :=
  { id := generateArticleId (fun s => s.length) "T" "L", title := "T",
    description := "copy from feed two", link := "L", source := "S2",
    author := "", category := "", published_date := 5, cached_at := 2 }

/-- An unrelated article with a distinct id. -/
def wC : NewsArticle :=
  { id := generateArticleId (fun s => s.length) "Ti" "Lnk", title := "Ti",
    description := "", link := "Lnk", source := "S3",
    author := "", category := "", published_date := 7, cached_at := 1 }

/-- Witness for C6: two articles with identical title and link collapse to
the first encountered instance. -/
theorem claim_C6_witness :
    wA.id = wB.id ∧ deduplicateArticles [wA, wC, wB] = [wA, wC] := by
  refine ⟨rfl, ?_⟩
  have h := (claim_C6_dedupe [wA, wC, wB]).2.2.2 [] [wC] [] wA wB rfl
  have h2 : deduplicateArticles [wA, wC] = [wA, wC] := by decide
  calc deduplicateArticles [wA, wC, wB]
      = deduplicateArticles ([] ++ wA :: ([wC] ++ wB :: [])) := rfl
    _ = deduplicateArticles ([] ++ wA :: ([wC] ++ [])) := h
    _ = deduplicateArticles [wA, wC] := rfl
    _ = [wA, wC] := h2

/-- RSS item with an unparsable date used by C7. -/
def itemC7 : XML :=
  .elem "item" [] none
    [.elem "title" [] (some "T7") [],
     .elem "link" [] (some "http://l7") [],
     .elem "pubDate" [] (some "not-a-date") []]

/-- RSS document holding `itemC7` under a channel titled `Feed Seven`. -/
def docC7 : XMLDoc :=
  ⟨[.elem "rss" [("version", "2.0")] none
      [.elem "channel" [] none
        [.elem "title" [] (some "Feed Seven") [], itemC7]]]⟩

/-- Raw feed text mapped to `docC7` by the parser oracle in C7. -/
def xmlC7 : String := "<rss version=\"2.0\">seven</rss>"

/-- C7: parseDate substitutes the current time for an empty date string,
otherwise tries the RFC822, ISO8601 and bare-date formats in that order
returning the first success, and falls back to the current time (a nonzero
value whenever the clock is positive) when all three fail; an RSS item
whose date string parses under no format is still accepted when its title
and link are non-empty, carrying the current time as published_date. -/
theorem claim_C7_parseDate (env : Env) (now : Int) (s : String) :
    parseDate env now "" = now
  ∧ (s ≠ "" → ∀ t, env.fmt822 s = some t → parseDate env now s = t)
  ∧ (s ≠ "" → env.fmt822 s = none → ∀ t, env.fmtISO s = some t →
      parseDate env now s = t)
  ∧ (s ≠ "" → env.fmt822 s = none → env.fmtISO s = none → ∀ t,
      env.fmtDay s = some t → parseDate env now s = t)
  ∧ (env.fmt822 s = none → env.fmtISO s = none → env.fmtDay s = none →
      parseDate env now s = now)
  ∧ (0 < now → env.fmt822 s = none → env.fmtISO s = none →
      env.fmtDay s = none → parseDate env now s ≠ 0)
  ∧ (env.parseXML xmlC7 = some docC7 →
      env.fmt822 "not-a-date" = none → env.fmtISO "not-a-date" = none →
      env.fmtDay "not-a-date" = none →
      ∃ a, parseRSSFeed env xmlC7 (Feed.mk0 "u7") 50 now = [a] ∧
        a.published_date = now ∧ a.title = "T7" ∧ a.link = "http://l7") := by
  have hfall : ∀ s2 : String, env.fmt822 s2 = none → env.fmtISO s2 = none →
      env.fmtDay s2 = none → parseDate env now s2 = now := by
    intro s2 h8 hI hD
    by_cases he : s2 = ""
    · simp [parseDate, he]
    · simp [parseDate, he, h8, hI, hD]
  refine ⟨by simp [parseDate], ?_, ?_, ?_, hfall s, ?_, ?_⟩
  · intro he t h8
    simp [parseDate, he, h8]
  · intro he h8 t hI
    simp [parseDate, he, h8, hI]
  · intro he h8 hI t hD
    simp [parseDate, he, h8, hI, hD]
  · intro hpos h8 hI hD
    rw [hfall s h8 hI hD]
    omega
  · intro hparse h8 hI hD
    have hlist : parseRSSFeed env xmlC7 (Feed.mk0 "u7") 50 now =
        [mkRSSArticle env now "Feed Seven" (Feed.mk0 "u7") itemC7] := by
      unfold parseRSSFeed
      rw [hparse]
      rfl
    refine ⟨mkRSSArticle env now "Feed Seven" (Feed.mk0 "u7") itemC7, hlist, ?_, rfl, rfl⟩
    show parseDate env now "not-a-date" = now
    exact hfall "not-a-date" h8 hI hD

/-- Environment of the C7 witness: the parser oracle recognizes the C7
document, every date format fails. -/
def envC7 : Env :=
  { fetch := fun _ => { data := "", status_code := 0, success := false },
    parseXML := fun x => if x = xmlC7 then some docC7 else none,
    hashStr := fun s => s.length,
    fmt822 := fun _ => none, fmtISO := fun _ => none, fmtDay := fun _ => none }

/-- Witness for C7: the date string not-a-date falls back to the current
time 42 and the article is still accepted. -/
theorem claim_C7_witness :
    parseDate envC7 42 "not-a-date" = 42 ∧
      (∃ a, parseRSSFeed envC7 xmlC7 (Feed.mk0 "u7") 50 42 = [a] ∧
        a.published_date = 42 ∧ a.title = "T7" ∧ a.link = "http://l7") :=
  ⟨(claim_C7_parseDate envC7 42 "not-a-date").2.2.2.2.1 rfl rfl rfl,
    (claim_C7_parseDate envC7 42 "not-a-date").2.2.2.2.2.2 rfl rfl rfl rfl⟩

/-- C8: after initialization with any integer arguments the TTL is at least
300 seconds and the per-feed article bound lies in 1..200; setCacheTTL
re-clamps the TTL to the same floor without touching the bound; and both
parsers respect the configured per-feed bound whatever the feed document
holds. -/
theorem claim_C8_config (st : NewsState) (ttl m : Int) (env : Env) :
    300 ≤ ((initializeService st ttl m).2).cache_ttl_seconds
  ∧ 1 ≤ ((initializeService st ttl m).2).max_articles_per_feed
  ∧ ((initializeService st ttl m).2).max_articles_per_feed ≤ 200
  ∧ 300 ≤ (setCacheTTL st ttl).cache_ttl_seconds
  ∧ (setCacheTTL st ttl).max_articles_per_feed = st.max_articles_per_feed
  ∧ (∀ s fi now,
      ((parseRSSFeed env s fi ((initializeService st ttl m).2).max_articles_per_feed
        now).length : Int) ≤ ((initializeService st ttl m).2).max_articles_per_feed)
  ∧ (∀ s fi now,
      ((parseAtomFeed env s fi ((initializeService st ttl m).2).max_articles_per_feed
        now).length : Int) ≤ ((initializeService st ttl m).2).max_articles_per_feed) := by
  have hmax : ((initializeService st ttl m).2).max_articles_per_feed =
      max 1 (min m 200) := rfl
  have h1 : (1 : Int) ≤ max 1 (min m 200) := le_max_left 1 (min m 200)
  refine ⟨le_max_left 300 ttl, by rw [hmax]; exact h1, ?_, le_max_left 300 ttl, rfl, ?_, ?_⟩
  · rw [hmax]
    exact max_le (by norm_num) (min_le_right m 200)
  · intro s fi now
    rw [hmax]
    exact parseRSSFeed_length_le env s fi _ now (le_trans (by norm_num) h1)
  · intro s fi now
    rw [hmax]
    exact parseAtomFeed_length_le env s fi _ now (le_trans (by norm_num) h1)

/-- C4: with a 300 second TTL, an entry stored at time 0 carries
expires_at 300, is returned unchanged by a lookup at time 299, and at time
301 the lookup itself evicts the entry from the map and returns the empty
list. -/
theorem claim_C4_cache_expiry (st : NewsState) (k : String)
    (arts : List NewsArticle) (h : st.cache_ttl_seconds = 300) :
    mapFind ((setCachedNews 0 st k arts).news_cache) k =
      some { articles := arts, cached_at := 0, expires_at := 300 }
  ∧ getCachedNews 299 (setCachedNews 0 st k arts) k =
      (arts, setCachedNews 0 st k arts)
  ∧ getCachedNews 301 (setCachedNews 0 st k arts) k =
      ([], { setCachedNews 0 st k arts with
              news_cache := mapErase ((setCachedNews 0 st k arts).news_cache) k })
  ∧ mapFind (mapErase ((setCachedNews 0 st k arts).news_cache) k) k = none := by
  have hfind : mapFind ((setCachedNews 0 st k arts).news_cache) k =
      some { articles := arts, cached_at := 0, expires_at := 300 } := by
    show mapFind (mapInsert st.news_cache k
      { articles := arts, cached_at := 0, expires_at := 0 + st.cache_ttl_seconds }) k = _
    rw [mapFind_mapInsert_self, h]
    norm_num
  refine ⟨hfind, ?_, ?_, mapFind_mapErase_self _ k⟩
  · unfold getCachedNews cacheGet
    rw [hfind]
    rfl
  · unfold getCachedNews cacheGet
    rw [hfind]
    rfl

/-- State used by the C4 witness: empty registry and cache, 300 second TTL. -/
def stW4 : NewsState :=
  { feeds := [], news_cache := [], cache_ttl_seconds := 300, max_articles_per_feed := 50 }

/-- Witness for C4 at a concrete state and article list. -/
theorem claim_C4_witness :
    stW4.cache_ttl_seconds = 300 ∧
      getCachedNews 299 (setCachedNews 0 stW4 "k" [wC]) "k" =
        ([wC], setCachedNews 0 stW4 "k" [wC]) := by
  exact ⟨rfl, (claim_C4_cache_expiry stW4 "k" [wC] rfl).2.1⟩

/-- C3: addFeed rejects a duplicate url, a failed or non-200 validation
fetch, and an UNKNOWN feed type, in each case returning false with the
state untouched; when all validations pass it returns true having appended
exactly one default-constructed Feed for the url, and in every case the
cache and configuration are untouched. -/
theorem claim_C3_addFeed (env : Env) (st : NewsState) (url : String) :
    ((∃ f ∈ st.feeds, f.url = url) → addFeed env st url = (false, st))
  ∧ (¬ ((env.fetch url).success = true ∧ (env.fetch url).status_code = 200) →
      addFeed env st url = (false, st))
  ∧ (detectFeedType (env.fetch url).data = FeedType.UNKNOWN →
      addFeed env st url = (false, st))
  ∧ (url ≠ "" → ¬ (∃ f ∈ st.feeds, f.url = url) →
      (env.fetch url).success = true → (env.fetch url).status_code = 200 →
      detectFeedType (env.fetch url).data ≠ FeedType.UNKNOWN →
      addFeed env st url = (true, { st with feeds := st.feeds ++ [Feed.mk0 url] }))
  ∧ (∀ b st2, addFeed env st url = (b, st2) →
      st2.news_cache = st.news_cache ∧
      st2.cache_ttl_seconds = st.cache_ttl_seconds ∧
      st2.max_articles_per_feed = st.max_articles_per_feed ∧
      (b = false → st2 = st) ∧
      (b = true → st2.feeds = st.feeds ++ [Feed.mk0 url])) := by
  have hany : (st.feeds.any (fun f => f.url == url) = true) ↔
      ∃ f ∈ st.feeds, f.url = url := by
    simp [List.any_eq_true]
  have hval : addFeed env st url =
      (if url = "" then (false, st)
       else if st.feeds.any (fun f => f.url == url) then (false, st)
       else if ¬ ((env.fetch url).success = true ∧ (env.fetch url).status_code = 200) then
         (false, st)
       else if detectFeedType (env.fetch url).data = FeedType.UNKNOWN then (false, st)
       else (true, { st with feeds := st.feeds ++ [Feed.mk0 url] })) := rfl
  refine ⟨?_, ?_, ?_, ?_, ?_⟩
  · intro hex
    have ha : st.feeds.any (fun f => f.url == url) = true := hany.mpr hex
    rw [hval]
    by_cases hu : url = ""
    · simp [hu]
    · simp [hu, ha]
  · intro hfail
    rw [hval]
    by_cases hu : url = ""
    · simp [hu]
    · by_cases ha : st.feeds.any (fun f => f.url == url) = true
      · simp [hu, ha]
      · simp [hu, ha, hfail]
  · intro hunk
    rw [hval]
    by_cases hu : url = ""
    · simp [hu]
    · by_cases ha : st.feeds.any (fun f => f.url == url) = true
      · simp [hu, ha]
      · by_cases hf : ¬ ((env.fetch url).success = true ∧ (env.fetch url).status_code = 200)
        · simp [hu, ha, hf]
        · simp [hu, ha, hf, hunk]
  · intro hne hnodup hsucc hcode hty
    have haf : ¬ (st.feeds.any (fun f => f.url == url) = true) :=
      fun hh => hnodup (hany.mp hh)
    rw [hval, if_neg hne, if_neg haf, if_neg (not_not_intro ⟨hsucc, hcode⟩), if_neg hty]
  · intro b st2 heq
    rw [hval] at heq
    split_ifs at heq with h1 h2 h3 h4
    all_goals injection heq with hb hst
    all_goals subst hb
    all_goals subst hst
    all_goals refine ⟨rfl, rfl, rfl, ?_, ?_⟩
    all_goals first
      | exact fun _ => rfl
      | exact fun hc => Bool.noConfusion hc

/-- Environment used by the C3 witness: the validation fetch of the new
url succeeds with RSS 2.0 content. -/
def envC3 : Env :=
  { fetch := fun _ =>
      { data := "<rss version=\"2.0\"><channel></channel></rss>",
        status_code := 200, success := true },
    parseXML := fun _ => none,
    hashStr := fun s => s.length,
    fmt822 := fun _ => none, fmtISO := fun _ => none, fmtDay := fun _ => none }

/-- State used by the C3 witness: empty registry. -/
def stC3 : NewsState :=
  { feeds := [], news_cache := [], cache_ttl_seconds := 300, max_articles_per_feed := 50 }

/-- Witness for C3: a fresh url validating as RSS 2.0 is appended. -/
theorem claim_C3_witness :
    addFeed envC3 stC3 "http://new.example/" =
      (true, { stC3 with feeds := stC3.feeds ++ [Feed.mk0 "http://new.example/"] }) := by
  exact (claim_C3_addFeed envC3 stC3 "http://new.example/").2.2.2.1
    (by decide) (by decide) (by decide) (by decide) (by decide)

/-- C10: refreshAllFeeds always reports the total number of configured
feeds, because its zero branch tests emptiness of the serialized article
array, which always carries at least the surrounding brackets; hence a
non-empty registry never yields zero, whatever the fetches did. -/
theorem claim_C10_refreshAllFeeds (env : Env) (now : Int)
    (sortImpl : List NewsArticle → List NewsArticle) (st : NewsState) :
    (refreshAllFeeds env now sortImpl st).1 = (st.feeds.length : Int)
  ∧ (st.feeds ≠ [] → (refreshAllFeeds env now sortImpl st).1 ≠ 0)
  ∧ (∀ l, articlesToJson l ≠ "") := by
  have hne : (getLatestNews env now sortImpl true st).1 ≠ "" :=
    articlesToJson_ne_empty _
  have hlen : ((getLatestNews env now sortImpl true st).2).feeds.length =
      st.feeds.length := by
    show ((getLatestNewsCore env now true st).2).feeds.length = st.feeds.length
    exact aggregateFeeds_length env now true st.cache_ttl_seconds
      st.max_articles_per_feed st.feeds st.news_cache
  have hfst : (refreshAllFeeds env now sortImpl st).1 = (st.feeds.length : Int) := by
    show (if (getLatestNews env now sortImpl true st).1 = "" then (0 : Int)
      else (((getLatestNews env now sortImpl true st).2).feeds.length : Int)) =
        (st.feeds.length : Int)
    rw [if_neg hne, hlen]
  refine ⟨hfst, ?_, articlesToJson_ne_empty⟩
  intro hfe
  rw [hfst]
  have : st.feeds.length ≠ 0 := by
    intro hz
    exact hfe (List.length_eq_zero.mp hz)
  exact_mod_cast this

/-- Environment used by the C10 witness: every fetch fails. -/
def env0 : Env :=
  { fetch := fun _ => { data := "", status_code := 0, success := false },
    parseXML := fun _ => none,
    hashStr := fun s => s.length,
    fmt822 := fun _ => none, fmtISO := fun _ => none, fmtDay := fun _ => none }

/-- State used by the C10 witness: one configured feed. -/
def stW10 : NewsState :=
  { feeds := [Feed.mk0 "http://w.example/"], news_cache := [],
    cache_ttl_seconds := 300, max_articles_per_feed := 50 }

/-- Witness for C10: with one configured feed whose fetch fails, the
reported count is still nonzero. -/
theorem claim_C10_witness :
    stW10.feeds ≠ [] ∧ (refreshAllFeeds env0 0 sortDescModel stW10).1 ≠ 0 := by
  exact ⟨by decide,
    (claim_C10_refreshAllFeeds env0 0 sortDescModel stW10).2.1 (by decide)⟩

/-- A concrete string hash used by the scenario oracles. -/
def hashLen : String → Nat := fun s => s.length

/-- Url of the C1 feed answered with HTTP 500. -/
def u1C1 : String := "http://one.example/feed"

/-- Url of the C1 feed answered with malformed XML. -/
def u2C1 : String := "http://two.example/feed"

/-- Url of the C1 feed answered with two valid RSS items. -/
def u3C1 : String := "http://three.example/feed"

/-- Well-formed RSS text delivered for the third C1 feed. -/
def rssTextC1 : String := "<rss version=\"2.0\"><channel>c</channel></rss>"

/-- Malformed XML delivered for the second C1 feed: it carries the RSS 2.0
signatures but tinyxml2 fails to parse it. -/
def badXmlC1 : String := "<rss version=\"2.0\"><chann"

/-- First RSS item of the C1 scenario. -/
def itemC1a : XML :=
  .elem "item" [] none
    [.elem "title" [] (some "Alpha") [],
     .elem "link" [] (some "http://example.com/a") [],
     .elem "pubDate" [] (some "d100") []]

/-- Second RSS item of the C1 scenario. -/
def itemC1b : XML :=
  .elem "item" [] none
    [.elem "title" [] (some "Beta") [],
     .elem "link" [] (some "http://example.com/b") [],
     .elem "pubDate" [] (some "d200") []]

/-- Parsed document of the third C1 feed. -/
def docC1 : XMLDoc :=
  ⟨[.elem "rss" [("version", "2.0")] none
      [.elem "channel" [] none
        [.elem "title" [] (some "Feed Three") [],
         .elem "description" [] (some "D3") [],
         itemC1a, itemC1b]]]⟩

/-- C1 environment: feed one gets HTTP 500, feed two malformed XML, feed
three a valid two-item RSS document. -/
def envC1 : Env :=
  { fetch := fun u =>
      if u = u1C1 then { data := "", status_code := 500, success := true }
      else if u = u2C1 then { data := badXmlC1, status_code := 200, success := true }
      else if u = u3C1 then { data := rssTextC1, status_code := 200, success := true }
      else { data := "", status_code := 0, success := false },
    parseXML := fun s => if s = rssTextC1 then some docC1 else none,
    hashStr := hashLen,
    fmt822 := fun s => if s = "d100" then some 100 else if s = "d200" then some 200 else none,
    fmtISO := fun _ => none,
    fmtDay := fun _ => none }

/-- C1 initial state: the three feeds configured and active, empty cache. -/
def stC1 : NewsState :=
  { feeds := [Feed.mk0 u1C1, Feed.mk0 u2C1, Feed.mk0 u3C1],
    news_cache := [], cache_ttl_seconds := 300, max_articles_per_feed := 50 }

/-- First article parsed from the third C1 feed. -/
def a1C1 : NewsArticle :=
  { id := "25", title := "Alpha", description := "", link := "http://example.com/a",
    source := "Feed Three", author := "", category := "",
    published_date := 100, cached_at := 1000 }

/-- Second article parsed from the third C1 feed. -/
def a2C1 : NewsArticle :=
  { id := "24", title := "Beta", description := "", link := "http://example.com/b",
    source := "Feed Three", author := "", category := "",
    published_date := 200, cached_at := 1000 }

/-- C1 final state: both failing feeds carry their error, the succeeding
feed is marked updated with a cleared error and its articles cached. -/
def stC1fin : NewsState :=
  { feeds :=
      [{ Feed.mk0 u1C1 with last_error := "HTTP error: 500", last_fetch_attempt := 1000 },
       { Feed.mk0 u2C1 with last_error := "Failed to parse feed content", last_fetch_attempt := 1000 },
       { Feed.mk0 u3C1 with last_error := "", last_fetch_attempt := 1000, last_updated := 1000 }],
    news_cache := [(generateCacheKey hashLen u3C1, ⟨[a1C1, a2C1], 1000, 1300⟩)],
    cache_ttl_seconds := 300, max_articles_per_feed := 50 }

/-- C1: with three active feeds of which one answers HTTP 500, one answers
malformed XML and one answers two valid RSS items, getLatestNews(false)
returns the serialization of exactly the two valid articles, the two
failing feeds end with the respective non-empty last_error, the succeeding
feed with an empty one, and parsing the malformed XML yields the empty
article list rather than an error. -/
theorem claim_C1_graceful_degradation (f : List NewsArticle → List NewsArticle)
    (hf : SortSpec f) :
    getLatestNews envC1 1000 f false stC1 = (articlesToJson [a2C1, a1C1], stC1fin)
  ∧ parseRSSFeed envC1 badXmlC1 (Feed.mk0 u2C1) 50 1000 = []
  ∧ stC1fin.feeds.map (fun fd => fd.last_error) =
      ["HTTP error: 500", "Failed to parse feed content", ""]
  ∧ "HTTP error: 500" ≠ "" ∧ "Failed to parse feed content" ≠ "" := by
  have hcore : getLatestNewsCore envC1 1000 false stC1 = ([a1C1, a2C1], stC1fin) := by
    decide
  have hdedup : deduplicateArticles [a1C1, a2C1] = [a1C1, a2C1] := by decide
  have hsort : f [a1C1, a2C1] = [a2C1, a1C1] :=
    sortSpec_eq hf [a1C1, a2C1] [a2C1, a1C1] (by decide)
      (by simp [List.sorted_cons, newsDescStrict] <;> decide)
      (List.Perm.swap a1C1 a2C1 [])
  refine ⟨?_, by decide, by decide, by decide, by decide⟩
  unfold getLatestNews
  rw [hcore]
  dsimp only
  rw [hdedup, hsort]
  norm_num

/-- Witness for C1 at the concrete insertion sort model. -/
theorem claim_C1_witness :
    SortSpec sortDescModel ∧
      getLatestNews envC1 1000 sortDescModel false stC1 =
        (articlesToJson [a2C1, a1C1], stC1fin) :=
  ⟨sortDescModel_sortSpec,
    (claim_C1_graceful_degradation sortDescModel sortDescModel_sortSpec).1⟩

/-- A cache hit leaves the feed and the cache untouched and contributes the
cached articles without consulting the fetcher, the XML parser or the date
oracles. -/
theorem processFeed_cache_hit (env : Env) (now ttl maxA : Int)
    (cache : List (String × CacheEntry)) (feed : Feed)
    (arts : List NewsArticle) (hact : feed.is_active = true)
    (hhit : cacheGet now cache (generateCacheKey env.hashStr feed.url) = (arts, cache))
    (hne : arts.isEmpty = false) :
    processFeed env now false ttl maxA cache feed = (feed, cache, arts) := by
  unfold processFeed
  simp [hact, hhit, hne]

/-- Url of the single C9 feed. -/
def u9 : String := "http://nine.example/feed"

/-- Well-formed RSS text of the C9 feed. -/
def rssText9 : String := "<rss version=\"2.0\"><channel>n</channel></rss>"

/-- Parsed document of the C9 feed: two items with distinct dates. -/
def doc9 : XMLDoc :=
  ⟨[.elem "rss" [("version", "2.0")] none
      [.elem "channel" [] none
        [.elem "title" [] (some "Feed Nine") [],
         .elem "item" [] none
           [.elem "title" [] (some "Nine1") [],
            .elem "link" [] (some "n1") [],
            .elem "pubDate" [] (some "e100") []],
         .elem "item" [] none
           [.elem "title" [] (some "Nine22") [],
            .elem "link" [] (some "n2") [],
            .elem "pubDate" [] (some "e200") []]]]]⟩

/-- C9 environment for the first call. -/
def env9 : Env :=
  { fetch := fun u =>
      if u = u9 then { data := rssText9, status_code := 200, success := true }
      else { data := "", status_code := 0, success := false },
    parseXML := fun s => if s = rssText9 then some doc9 else none,
    hashStr := hashLen,
    fmt822 := fun s => if s = "e100" then some 100 else if s = "e200" then some 200 else none,
    fmtISO := fun _ => none,
    fmtDay := fun _ => none }

/-- C9 initial state. -/
def st9 : NewsState :=
  { feeds := [Feed.mk0 u9], news_cache := [],
    cache_ttl_seconds := 300, max_articles_per_feed := 50 }

/-- First article of the C9 feed. -/
def b1C9 : NewsArticle :=
  { id := "7", title := "Nine1", description := "", link := "n1",
    source := "Feed Nine", author := "", category := "",
    published_date := 100, cached_at := 1000 }

/-- Second article of the C9 feed. -/
def b2C9 : NewsArticle :=
  { id := "8", title := "Nine22", description := "", link := "n2",
    source := "Feed Nine", author := "", category := "",
    published_date := 200, cached_at := 1000 }

/-- The C9 feed record after the first call. -/
def feed9fin : Feed :=
  { Feed.mk0 u9 with last_fetch_attempt := 1000, last_updated := 1000 }

/-- The C9 cache after the first call: expiry 1300. -/
def cache9fin : List (String × CacheEntry) :=
  [(generateCacheKey hashLen u9, ⟨[b1C9, b2C9], 1000, 1300⟩)]

/-- C9 state after the first call. -/
def st9fin : NewsState :=
  { feeds := [feed9fin], news_cache := cache9fin,
    cache_ttl_seconds := 300, max_articles_per_feed := 50 }

/-- C9: a first getLatestNews(false) call at time 1000 fetches, caches and
serializes the two articles; a second call at time 1299 (inside the TTL
window) returns the byte-identical serialization and the identical state
under any environment that shares only the string hash: the second call is
answered entirely from the cache, so no second fetch can influence it. -/
theorem claim_C9_idempotence (f : List NewsArticle → List NewsArticle)
    (hf : SortSpec f) (env2 : Env) (hh : env2.hashStr = env9.hashStr) :
    getLatestNews env9 1000 f false st9 = (articlesToJson [b2C9, b1C9], st9fin)
  ∧ getLatestNews env2 1299 f false st9fin = (articlesToJson [b2C9, b1C9], st9fin) := by
  have hsort : f [b1C9, b2C9] = [b2C9, b1C9] :=
    sortSpec_eq hf [b1C9, b2C9] [b2C9, b1C9] (by decide)
      (by simp [List.sorted_cons, newsDescStrict] <;> decide)
      (List.Perm.swap b1C9 b2C9 [])
  have hdedup : deduplicateArticles [b1C9, b2C9] = [b1C9, b2C9] := by decide
  constructor
  · have hcore : getLatestNewsCore env9 1000 false st9 = ([b1C9, b2C9], st9fin) := by
      decide
    unfold getLatestNews
    rw [hcore]
    dsimp only
    rw [hdedup, hsort]
    norm_num
  · have hhit : cacheGet 1299 cache9fin
        (generateCacheKey env2.hashStr feed9fin.url) = ([b1C9, b2C9], cache9fin) := by
      rw [hh]
      show cacheGet 1299 cache9fin (generateCacheKey hashLen u9) = ([b1C9, b2C9], cache9fin)
      decide
    have hpf : processFeed env2 1299 false 300 50 cache9fin feed9fin =
        (feed9fin, cache9fin, [b1C9, b2C9]) :=
      processFeed_cache_hit env2 1299 300 50 cache9fin feed9fin [b1C9, b2C9]
        rfl hhit rfl
    have hagg : aggregateFeeds env2 1299 false st9fin.cache_ttl_seconds
        st9fin.max_articles_per_feed st9fin.feeds st9fin.news_cache =
        ([feed9fin], cache9fin, [b1C9, b2C9]) := by
      have h300 : st9fin.cache_ttl_seconds = 300 := rfl
      have h50 : st9fin.max_articles_per_feed = 50 := rfl
      have hfeeds : st9fin.feeds = [feed9fin] := rfl
      have hcache : st9fin.news_cache = cache9fin := rfl
      rw [h300, h50, hfeeds, hcache]
      simp [aggregateFeeds, hpf]
    have hcore2 : getLatestNewsCore env2 1299 false st9fin = ([b1C9, b2C9], st9fin) := by
      unfold getLatestNewsCore
      rw [hagg]
      rfl
    unfold getLatestNews
    rw [hcore2]
    dsimp only
    rw [hdedup, hsort]
    norm_num

/-- Environment of the C9 witness second call: every fetch fails, nothing
parses; only the string hash agrees with the first environment. -/
def env9b : Env :=
  { fetch := fun _ => { data := "", status_code := 0, success := false },
    parseXML := fun _ => none, hashStr := hashLen,
    fmt822 := fun _ => none, fmtISO := fun _ => none, fmtDay := fun _ => none }

/-- Witness for C9: both calls evaluated with the insertion sort model and
a second environment whose fetch always fails. -/
theorem claim_C9_witness :
    SortSpec sortDescModel ∧ env9b.hashStr = env9.hashStr ∧
      getLatestNews env9b 1299 sortDescModel false st9fin =
      (articlesToJson [b2C9, b1C9], st9fin) :=
  ⟨sortDescModel_sortSpec, rfl,
    (claim_C9_idempotence sortDescModel sortDescModel_sortSpec env9b rfl).2⟩

/-- Url of the C2 tie feed. -/
def u2x : String := "http://tie.example/feed"

/-- RSS text of the C2 tie feed. -/
def rssTextC2 : String := "<rss version=\"2.0\"><channel>t</channel></rss>"

/-- Parsed document of the C2 tie feed: two items with the same date. -/
def docC2 : XMLDoc :=
  ⟨[.elem "rss" [("version", "2.0")] none
      [.elem "channel" [] none
        [.elem "title" [] (some "Feed Equal") [],
         .elem "item" [] none
           [.elem "title" [] (some "Xa") [],
            .elem "link" [] (some "LA") [],
            .elem "pubDate" [] (some "dx") []],
         .elem "item" [] none
           [.elem "title" [] (some "Ybb") [],
            .elem "link" [] (some "LBB") [],
            .elem "pubDate" [] (some "dx") []]]]]⟩

/-- C2 tie environment. -/
def envC2 : Env :=
  { fetch := fun u =>
      if u = u2x then { data := rssTextC2, status_code := 200, success := true }
      else { data := "", status_code := 0, success := false },
    parseXML := fun s => if s = rssTextC2 then some docC2 else none,
    hashStr := hashLen,
    fmt822 := fun s => if s = "dx" then some 500 else none,
    fmtISO := fun _ => none,
    fmtDay := fun _ => none }

/-- C2 tie initial state. -/
def stC2 : NewsState :=
  { feeds := [Feed.mk0 u2x], news_cache := [],
    cache_ttl_seconds := 300, max_articles_per_feed := 50 }

/-- First tie article, first in input order. -/
def xA : NewsArticle :=
  { id := "4", title := "Xa", description := "", link := "LA",
    source := "Feed Equal", author := "", category := "",
    published_date := 500, cached_at := 2000 }

/-- Second tie article, same published_date, later in input order. -/
def xB : NewsArticle :=
  { id := "6", title := "Ybb", description := "", link := "LBB",
    source := "Feed Equal", author := "", category := "",
    published_date := 500, cached_at := 2000 }

/-- C2 tie state after the call. -/
def stC2fin : NewsState :=
  { feeds := [{ Feed.mk0 u2x with last_fetch_attempt := 2000, last_updated := 2000 }],
    news_cache := [(generateCacheKey hashLen u2x, ⟨[xA, xB], 2000, 2300⟩)],
    cache_ttl_seconds := 300, max_articles_per_feed := 50 }

/-- An admissible `std::sort` behavior that reverses ties: sorting the
reversed input with a stable insertion sort. -/
def badSortC2 : List NewsArticle → List NewsArticle :=
  fun l => List.insertionSort newsDesc l.reverse

/-- The tie-reversing function satisfies the `std::sort` postcondition. -/
theorem badSortC2_sortSpec : SortSpec badSortC2 :=
  fun l =>
    ⟨(List.perm_insertionSort newsDesc l.reverse).trans (List.reverse_perm l),
      List.sorted_insertionSort newsDesc l.reverse⟩

set_option maxRecDepth 16384 in
/-- Counterexample for C2 as stated: the code sorts with `std::sort`, whose
contract does not include stability, so a run in which two articles with
equal published_date arrive in input order xA, xB may serialize them as
xB, xA; the claimed input-order tie-break is not guaranteed by the code. -/
theorem claim_C2_counterexample :
    SortSpec badSortC2
  ∧ xA.published_date = xB.published_date
  ∧ xA ≠ xB
  ∧ getLatestNewsCore envC2 2000 false stC2 = ([xA, xB], stC2fin)
  ∧ getLatestNews envC2 2000 badSortC2 false stC2 = (articlesToJson [xB, xA], stC2fin)
  ∧ articlesToJson [xB, xA] ≠ articlesToJson [xA, xB] := by
  refine ⟨badSortC2_sortSpec, by decide, by decide, by decide, by decide, by decide⟩

/-- Url of the C2 three-date feed. -/
def u2b : String := "http://b2.example/feed"

/-- RSS text of the C2 three-date feed. -/
def rssTextC2b : String := "<rss version=\"2.0\"><channel>b</channel></rss>"

/-- Parsed document of the C2 three-date feed: items dated 300, 100, 200
in document order. -/
def docC2b : XMLDoc :=
  ⟨[.elem "rss" [("version", "2.0")] none
      [.elem "channel" [] none
        [.elem "title" [] (some "Feed B") [],
         .elem "item" [] none
           [.elem "title" [] (some "Threehundred") [],
            .elem "link" [] (some "u3") [],
            .elem "pubDate" [] (some "q300") []],
         .elem "item" [] none
           [.elem "title" [] (some "Hundred") [],
            .elem "link" [] (some "u1") [],
            .elem "pubDate" [] (some "q100") []],
         .elem "item" [] none
           [.elem "title" [] (some "Twohundred") [],
            .elem "link" [] (some "u2") [],
            .elem "pubDate" [] (some "q200") []]]]]⟩

/-- C2 three-date environment. -/
def envC2b : Env :=
  { fetch := fun u =>
      if u = u2b then { data := rssTextC2b, status_code := 200, success := true }
      else { data := "", status_code := 0, success := false },
    parseXML := fun s => if s = rssTextC2b then some docC2b else none,
    hashStr := hashLen,
    fmt822 := fun s =>
      if s = "q300" then some 300
      else if s = "q100" then some 100
      else if s = "q200" then some 200
      else none,
    fmtISO := fun _ => none,
    fmtDay := fun _ => none }

/-- C2 three-date initial state. -/
def stC2b : NewsState :=
  { feeds := [Feed.mk0 u2b], news_cache := [],
    cache_ttl_seconds := 300, max_articles_per_feed := 50 }

/-- Article dated 300. -/
def y3C2b : NewsArticle :=
  { id := "14", title := "Threehundred", description := "", link := "u3",
    source := "Feed B", author := "", category := "",
    published_date := 300, cached_at := 3000 }

/-- Article dated 100. -/
def y1C2b : NewsArticle :=
  { id := "9", title := "Hundred", description := "", link := "u1",
    source := "Feed B", author := "", category := "",
    published_date := 100, cached_at := 3000 }

/-- Article dated 200. -/
def y2C2b : NewsArticle :=
  { id := "12", title := "Twohundred", description := "", link := "u2",
    source := "Feed B", author := "", category := "",
    published_date := 200, cached_at := 3000 }

/-- C2 three-date state after the call. -/
def stC2bfin : NewsState :=
  { feeds := [{ Feed.mk0 u2b with last_fetch_attempt := 3000, last_updated := 3000 }],
    news_cache := [(generateCacheKey hashLen u2b, ⟨[y3C2b, y1C2b, y2C2b], 3000, 3300⟩)],
    cache_ttl_seconds := 300, max_articles_per_feed := 50 }

/-- C2 amended: for every admissible `std::sort` behavior the serialized
list is weakly descending in published_date and holds at most 100 articles
(the tie order being unspecified), and for three articles with the
pairwise distinct dates 300, 100, 200 the serialized order is exactly
300, 200, 100. -/
theorem claim_C2_sort_truncate (f : List NewsArticle → List NewsArticle)
    (hf : SortSpec f) (env : Env) (now : Int) (st : NewsState) :
    (∃ t, getLatestNews env now f false st =
        (articlesToJson t, (getLatestNewsCore env now false st).2)
      ∧ List.Sorted (fun a b => b.published_date ≤ a.published_date) t
      ∧ t.length ≤ 100)
  ∧ getLatestNews envC2b 3000 f false stC2b =
      (articlesToJson [y3C2b, y2C2b, y1C2b], stC2bfin) := by
  constructor
  · refine ⟨_, rfl, ?_, ?_⟩
    · by_cases h : 100 <
          (f (deduplicateArticles (getLatestNewsCore env now false st).1)).length
      · rw [if_pos h]
        exact List.Pairwise.sublist (List.take_sublist 100 _) (hf _).2
      · rw [if_neg h]
        exact (hf _).2
    · by_cases h : 100 <
          (f (deduplicateArticles (getLatestNewsCore env now false st).1)).length
      · rw [if_pos h]
        simp [List.length_take]
      · rw [if_neg h]
        omega
  · have hcore : getLatestNewsCore envC2b 3000 false stC2b =
        ([y3C2b, y1C2b, y2C2b], stC2bfin) := by decide
    have hdedup : deduplicateArticles [y3C2b, y1C2b, y2C2b] =
        [y3C2b, y1C2b, y2C2b] := by decide
    have hsort : f [y3C2b, y1C2b, y2C2b] = [y3C2b, y2C2b, y1C2b] :=
      sortSpec_eq hf [y3C2b, y1C2b, y2C2b] [y3C2b, y2C2b, y1C2b] (by decide)
        (by simp [List.sorted_cons, newsDescStrict] <;> decide)
        ((List.Perm.swap y1C2b y2C2b []).cons y3C2b)
    unfold getLatestNews
    rw [hcore]
    dsimp only
    rw [hdedup, hsort]
    norm_num

/-- Witness for the amended C2 at the concrete insertion sort model. -/
theorem claim_C2_witness :
    SortSpec sortDescModel ∧
      getLatestNews envC2b 3000 sortDescModel false stC2b =
        (articlesToJson [y3C2b, y2C2b, y1C2b], stC2bfin) :=
  ⟨sortDescModel_sortSpec,
    (claim_C2_sort_truncate sortDescModel sortDescModel_sortSpec envC2b 3000 stC2b).2⟩

end ModernDashboard
